import Mathlib

/-!
Verification of the port-resolution logic of the `options` Go package
(`src/options/options.go`). The file demonstrates four configuration idioms
for a server's listen port; the claims concern the functional-options
variant (`WithPort`, the variadic `NewServer`, lines 149-186) and the
builder variant (`ConfigBuilder.Port`, `build`, lines 103-127).

Go `int` is modelled as `Int` (port arithmetic here never overflows), a Go
`*int` as `Option Int` (`none` = nil pointer), and a Go function returning
`(T, error)` that may also dereference a nil pointer as `GoResult T`, whose
third constructor `nilDeref` records the run-time nil-pointer panic.
-/

set_option autoImplicit false

namespace PatternsOptions

/-- Outcome of a Go call: a value, an `error` with its message, or a
run-time panic from dereferencing a nil pointer. -/
inductive GoResult (α : Type) where
  | ok (a : α)
  | err (msg : String)
  | nilDeref
  deriving Repr, DecidableEq

/-- The `options` struct of the functional-options variant (line 149):
`type options struct { port *int }`. -/
structure options where
  port : Option Int
  deriving Repr, DecidableEq

/-- The `Option` function type of the source (line 153),
`type Option func(options *options) error`, embedded as a state-passing
function: it returns the (possibly mutated) struct together with the
returned error, `none` meaning the Go `nil` error. Named `OptionF` because
`Option` is taken by Lean. -/
def OptionF : Type := options → options × Option String

/-- `WithPort` (lines 155-164): the returned closure rejects a negative
port with the error "port cannot be negative" before touching the struct,
otherwise stores the port and returns nil. -/
def WithPort (port : Int) : OptionF := fun o =>
  if port < 0 then (o, some "port cannot be negative")
  else ({ o with port := some port }, none)

/-- The option-application loop of `NewServer` (lines 168-173): each option
runs on the accumulated struct; on the first non-nil error the loop stops
and the error is returned, later options never run. -/
def applyOpts : options → List OptionF → options × Option String
  | o, [] => (o, none)
  | o, f :: rest =>
    match f o with
    | (o2, some e) => (o2, some e)
    | (o2, none) => applyOpts o2 rest

/-- The port-computation block of `NewServer` (lines 175-183):
`var port int` starts at 0; the `options.port == nil` check has an empty
body, so `*options.port == 0` is evaluated even when the pointer is nil,
which panics (`nilDeref`); the zero branch is empty so `port` stays 0, and
the else branch copies the pointed-to value. -/
def resolveCore : Option Int → GoResult Int
  | none => GoResult.nilDeref
  | some p => GoResult.ok (if p = 0 then 0 else p)

/-- The `http.Server` value, of which only the `Addr` field is built. -/
structure HttpServer where
  Addr : String
  deriving Repr, DecidableEq

/-- `strconv.Itoa`: decimal string of an integer. -/
def itoa (n : Int) : String := toString n

/-- The functional-options `NewServer` (lines 166-186): apply the options
in order, abort on the first error, then compute the port (possibly
panicking on a nil pointer) and build `addr ++ ":" ++ itoa port`. -/
def NewServer (addr : String) (opts : List OptionF) : GoResult HttpServer :=
  match applyOpts { port := none } opts with
  | (_, some e) => GoResult.err e
  | (o, none) =>
    match resolveCore o.port with
    | GoResult.ok port => GoResult.ok { Addr := addr ++ ":" ++ itoa port }
    | GoResult.err e => GoResult.err e
    | GoResult.nilDeref => GoResult.nilDeref

/-- Port resolution for a given option list: the outcome of the
option-application loop followed by the port-computation block, i.e.
`NewServer` up to (but not including) building the address string. -/
def resolveOpts (opts : List OptionF) : GoResult Int :=
  match applyOpts { port := none } opts with
  | (_, some e) => GoResult.err e
  | (o, none) => resolveCore o.port

/-- The spec's `PortSpec` mapped onto the functional-options call shape:
*absent* is a `NewServer` call with no options, *present v* a call with the
single option `WithPort v`. -/
def specOpts : Option Int → List OptionF
  | none => []
  | some v => [WithPort v]

/-- The spec's `resolve`: port resolution of the option list a `PortSpec`
denotes. -/
def resolve (spec : Option Int) : GoResult Int :=
  resolveOpts (specOpts spec)

/-- Modelled from the spec: the default port constant 8080. The source's
"use default port" branches are empty, so no default constant exists in
the code; the value 8080 appears only in the example `main` functions. -/
def defaultPort : Int := 8080

/-- The builder variant's `ConfigBuilder` (lines 103-105). -/
structure ConfigBuilder where
  port : Option Int
  deriving Repr, DecidableEq

/-- The `Port` method (lines 107-111): unconditionally stores the given
port (any integer) and returns the builder; it cannot fail. -/
def ConfigBuilder.Port (b : ConfigBuilder) (port : Int) : ConfigBuilder :=
  { b with port := some port }

/-- The builder variant's `Config` (lines 99-101); the single field is
spelled `Post` in the source. -/
structure Config where
  Post : Int
  deriving Repr, DecidableEq

/-- `build` (lines 113-127): the nil check has an empty body, so
`*b.port < 0` dereferences a nil pointer when no port was set; a negative
stored port yields the error "port cannot be negative"; otherwise the
stored port is put into the config (the source writes `cfg.Port = b.port`,
naming the misspelled field, so the value lands in the struct's single
field). -/
def build (b : ConfigBuilder) : GoResult Config :=
  match b.port with
  | none => GoResult.nilDeref
  | some p =>
    if p < 0 then GoResult.err "port cannot be negative"
    else GoResult.ok { Post := p }

/-- C1: for every present negative integer v, `resolve (present v)` fails
with exactly the message "port cannot be negative" (the `WithPort` check
fires before any port is produced). -/
theorem resolve_negative_errors (v : Int) (h : v < 0) :
    resolve (some v) = GoResult.err "port cannot be negative" := by
  simp [resolve, resolveOpts, specOpts, applyOpts, WithPort, h]

/-- Witness for C1 at v = -1. -/
theorem resolve_negative_errors_witness :
    resolve (some (-1)) = GoResult.err "port cannot be negative" :=
  resolve_negative_errors (-1) (by decide)

/-- C2: for every present positive integer v, `resolve (present v)`
succeeds with exactly v; there is no upper bound. -/
theorem resolve_positive_verbatim (v : Int) (h : 0 < v) :
    resolve (some v) = GoResult.ok v := by
  have hnn : ¬ v < 0 := by omega
  have hnz : ¬ v = 0 := by omega
  simp [resolve, resolveOpts, specOpts, applyOpts, WithPort, hnn, resolveCore, hnz]

/-- Witness for C2 at v = 70000, above 65535. -/
theorem resolve_positive_verbatim_witness :
    resolve (some 70000) = GoResult.ok 70000 :=
  resolve_positive_verbatim 70000 (by decide)

/-- C3 (code bug): `resolve absent` does not return the default port 8080;
the empty nil-check body lets `*options.port == 0` dereference the nil
pointer, so the call panics. -/
theorem resolve_absent_panics :
    resolve none = GoResult.nilDeref ∧
      resolve none ≠ GoResult.ok defaultPort := by
  refine ⟨rfl, ?_⟩
  decide

/-- C4: `resolve (present 0)` succeeds with the ephemeral sentinel port 0,
which is neither an error nor the default port. -/
theorem resolve_zero_ephemeral :
    resolve (some 0) = GoResult.ok 0 ∧ (0 : Int) ≠ defaultPort := by
  refine ⟨rfl, ?_⟩
  decide

/-- C5 (code bug): `resolve` is not total with `InvalidPortError` as the
only failure mode: on the absent input it neither succeeds nor returns any
error; it crashes with a nil-pointer dereference. -/
theorem resolve_not_total :
    (∀ p : Int, resolve none ≠ GoResult.ok p) ∧
      (∀ msg : String, resolve none ≠ GoResult.err msg) ∧
      resolve none = GoResult.nilDeref := by
  refine ⟨?_, ?_, rfl⟩
  · intro p h
    exact GoResult.noConfusion (h.symm.trans rfl)
  · intro msg h
    exact GoResult.noConfusion (h.symm.trans rfl)

/-- C6: `resolve` is deterministic: two calls on the same `PortSpec` yield
the same outcome. -/
theorem resolve_deterministic (s₁ s₂ : Option Int) (h : s₁ = s₂) :
    resolve s₁ = resolve s₂ := by
  rw [h]

/-- Witness for C6 at the spec `present 8080`. -/
theorem resolve_deterministic_witness :
    resolve (some 8080) = resolve (some 8080) :=
  resolve_deterministic (some 8080) (some 8080) rfl

/-- C7: whenever `NewServer` succeeds, the address it hands the server is
exactly the host string, one ':', and the decimal representation of the
resolved port (which is "0" for the ephemeral sentinel). -/
theorem newServer_addr_format (addr : String) (opts : List OptionF)
    (s : HttpServer) (h : NewServer addr opts = GoResult.ok s) :
    ∃ p : Int, resolveOpts opts = GoResult.ok p ∧
      s.Addr = addr ++ ":" ++ toString p := by
  unfold NewServer at h
  unfold resolveOpts
  rcases happ : applyOpts { port := none } opts with ⟨o, oe⟩
  rw [happ] at h
  cases oe with
  | some e => exact absurd h (by simp)
  | none =>
    dsimp only at h
    cases hc : resolveCore o.port with
    | ok p =>
      rw [hc] at h
      dsimp only at h
      injection h with h2
      exact ⟨p, hc, by subst h2; rfl⟩
    | err e =>
      rw [hc] at h
      exact absurd h (by simp)
    | nilDeref =>
      rw [hc] at h
      exact absurd h (by simp)

/-- Witness for C7: `NewServer "localhost" [WithPort 8080]` succeeds and
its address decomposes as the theorem states. -/
theorem newServer_addr_format_witness :
    ∃ p : Int, resolveOpts [WithPort 8080] = GoResult.ok p ∧
      (HttpServer.mk "localhost:8080").Addr = "localhost" ++ ":" ++ toString p :=
  newServer_addr_format "localhost" [WithPort 8080]
    (HttpServer.mk "localhost:8080") rfl

/-- Helper: applying a list of successful `WithPort` options threads the
struct through, leaving the last stored port. -/
theorem applyOpts_withPort_append (vs : List Int) (v : Int)
    (hvs : ∀ x ∈ vs, 0 ≤ x) (hv : 0 ≤ v) (o : options) :
    applyOpts o ((vs ++ [v]).map WithPort) = ({ port := some v }, none) := by
  induction vs generalizing o with
  | nil =>
    have hnn : ¬ v < 0 := by omega
    simp [applyOpts, WithPort, hnn]
  | cons x xs ih =>
    have hx : ¬ x < 0 := by
      have := hvs x (by simp)
      omega
    have hxs : ∀ y ∈ xs, 0 ≤ y := fun y hy => hvs y (by simp [hy])
    simp only [List.cons_append, List.map_cons, applyOpts, WithPort, hx,
      if_neg hx]
    exact ih hxs _

/-- C8: when several `WithPort` options are supplied and all succeed, the
last one wins: the resolved port is the argument of the last `WithPort`. -/
theorem withPort_last_wins (vs : List Int) (v : Int)
    (hvs : ∀ x ∈ vs, 0 ≤ x) (hv : 0 ≤ v) :
    resolveOpts ((vs ++ [v]).map WithPort) = GoResult.ok v := by
  unfold resolveOpts
  rw [applyOpts_withPort_append vs v hvs hv]
  simp only [resolveCore]
  by_cases hz : v = 0
  · subst hz; rfl
  · simp [hz]

/-- Witness for C8: of `WithPort 0`, `WithPort 70000`, `WithPort 8081`,
the last argument 8081 is the resolved port. -/
theorem withPort_last_wins_witness :
    resolveOpts (([0, 70000] ++ [8081]).map WithPort) = GoResult.ok 8081 :=
  withPort_last_wins [0, 70000] 8081 (by decide) (by decide)

/-- C9: a negative `WithPort` is atomic: it returns the error and leaves
the options struct exactly as it was, and the option loop stops there, so
`NewServer` aborts with that error and never applies a later option. -/
theorem withPort_negative_atomic (v : Int) (h : v < 0) (o : options)
    (rest : List OptionF) (addr : String) :
    WithPort v o = (o, some "port cannot be negative") ∧
      applyOpts o (WithPort v :: rest) = (o, some "port cannot be negative") ∧
      NewServer addr (WithPort v :: rest) =
        GoResult.err "port cannot be negative" := by
  refine ⟨by simp [WithPort, h], ?_, ?_⟩
  · simp [applyOpts, WithPort, h]
  · unfold NewServer
    simp [applyOpts, WithPort, h]

/-- Witness for C9 at v = -1 on a struct already holding port 5, with one
later option. -/
theorem withPort_negative_atomic_witness :
    WithPort (-1) { port := some 5 } =
        ({ port := some 5 }, some "port cannot be negative") ∧
      applyOpts { port := some 5 } [WithPort (-1), WithPort 3] =
        ({ port := some 5 }, some "port cannot be negative") ∧
      NewServer "localhost" [WithPort (-1), WithPort 3] =
        GoResult.err "port cannot be negative" :=
  withPort_negative_atomic (-1) (by decide) { port := some 5 }
    [WithPort 3] "localhost"

/-- C10: the builder's `Port` method stores any integer, negative ones
included, and cannot fail; the negative-port rejection happens only at
`build`, which errors exactly on a stored negative port and succeeds on a
non-negative one. -/
theorem builder_port_defers_validation (b : ConfigBuilder) (v : Int) :
    ConfigBuilder.Port b v = { port := some v } ∧
      (v < 0 →
        build (ConfigBuilder.Port b v) = GoResult.err "port cannot be negative") ∧
      (0 ≤ v → build (ConfigBuilder.Port b v) = GoResult.ok { Post := v }) := by
  refine ⟨rfl, ?_, ?_⟩
  · intro h
    simp [build, ConfigBuilder.Port, h]
  · intro h
    have hnn : ¬ v < 0 := by omega
    simp [build, ConfigBuilder.Port, hnn]

/-- Witness for C10 at v = -7: `Port` stores -7 without failing and
`build` then rejects it. -/
theorem builder_port_defers_validation_witness :
    ConfigBuilder.Port { port := none } (-7) = { port := some (-7) } ∧
      build (ConfigBuilder.Port { port := none } (-7)) =
        GoResult.err "port cannot be negative" :=
  ⟨(builder_port_defers_validation { port := none } (-7)).1,
    (builder_port_defers_validation { port := none } (-7)).2.1 (by decide)⟩

end PatternsOptions
